import Mathlib

/-!
Shallow embedding of the Phaser VirtualJoystick input plugin
(`Phaser.VirtualJoystick.Stick`, `.DPad`, `.Button`, and the host-input
registration performed by their constructors and `destroy` methods).

Modelling conventions:
* JavaScript numbers are modelled as exact rationals (`ℚ`); the decimal
  literals of the source (for example `1.5707963267948966`, `0.15`) are taken
  at their exact decimal value.
* The host engine's geometry helpers (`Phaser.Line#length`, `Phaser.Line#angle`,
  `Phaser.Math.radToDeg`, `Phaser.Circle#circumferencePoint`) are supplied by
  the engine, which the specification places outside the system's scope.
  Where a handler reads one of those values the model takes it as an explicit
  argument (`len` for the current line length, `aDeg` for the degree angle of
  the line, `aRad` for its radian angle, `lim` for the circumference point),
  and theorems constrain those arguments exactly where a rational embedding
  can pin them down (`len ^ 2 = lengthSq`, the axis cases of atan2).
* Phaser signals become lists of dispatched events returned by each handler;
  sprites are dropped except for the semantically relevant frame selectors of
  `DPad` and `Button`; `Phaser.Pointer` identity (`===`) becomes equality of a
  pointer id (`ℕ`), since a control compares the very object it stored.
* Each handler is a pure function from the control's state (plus the host
  supplied inputs above and the current time `now`) to a new state and the
  list of notifications dispatched, mirroring the source statement by
  statement.
-/

namespace VJoy

/-- Modelled from the spec: host geometry point (`Phaser.Point`), a pair of
coordinates. -/
structure Pt where
  x : ℚ
  y : ℚ
deriving DecidableEq

/-- Modelled from the spec: host geometry line (`Phaser.Line`), holding its
start and end points (the source field `end` is a Lean keyword, rendered
`stop`). -/
structure Line where
  start : Pt
  stop : Pt
deriving DecidableEq

/-- Squared length of a line. The host's `Line#length` is the square root of
this; handlers receive the length as an argument `len` tied to this value by
`0 ≤ len ∧ len ^ 2 = lengthSq`. -/
def Line.lengthSq (l : Line) : ℚ :=
  (l.stop.x - l.start.x) ^ 2 + (l.stop.y - l.start.y) ^ 2

/-- Modelled from the spec: host geometry circle (`Phaser.Circle`), whose
constructor takes the center and the diameter. -/
structure Circle where
  x : ℚ
  y : ℚ
  diameter : ℚ
deriving DecidableEq

def Circle.radius (c : Circle) : ℚ := c.diameter / 2

/-- Modelled from the spec: `Phaser.Circle#contains` — true when the radius is
positive and the point is within radius of the center (the engine's bounding
box pre-check is implied by the distance check). -/
def Circle.contains (c : Circle) (px py : ℚ) : Bool :=
  decide (0 < c.radius ∧ (c.x - px) ^ 2 + (c.y - py) ^ 2 ≤ c.radius ^ 2)

/-- Modelled from the spec: host geometry rectangle (`Phaser.Rectangle`). -/
structure RectArea where
  x : ℚ
  y : ℚ
  width : ℚ
  height : ℚ
deriving DecidableEq

/-- Modelled from the spec: `Phaser.Rectangle#contains` (empty rectangles
contain nothing; right and bottom edges are exclusive). -/
def RectArea.contains (r : RectArea) (px py : ℚ) : Bool :=
  decide (0 < r.width ∧ 0 < r.height ∧
    r.x ≤ px ∧ px < r.x + r.width ∧ r.y ≤ py ∧ py < r.y + r.height)

/-- The direction constants `Phaser.NONE / LEFT / RIGHT / UP / DOWN`. -/
inductive Dir where
  | NONE
  | LEFT
  | RIGHT
  | UP
  | DOWN
deriving DecidableEq

/-- The motion lock constants `Phaser.VirtualJoystick.NONE / HORIZONTAL /
VERTICAL`. -/
inductive MotionLock where
  | NONE
  | HORIZONTAL
  | VERTICAL
deriving DecidableEq

/-- One dispatched notification on one of the four signals of a control. -/
inductive Ev where
  | down
  | up
  | move
  | update
deriving DecidableEq

/-- DPad sprite frame selector (`neutralFrame` …, modelled as an enum since the
actual atlas frame names are free-form strings resolved by the renderer). -/
inductive DFrame where
  | neutral
  | up
  | down
  | left
  | right
deriving DecidableEq

/-- Button sprite frame selector (`upFrame` / `downFrame`). -/
inductive BFrame where
  | up
  | down
deriving DecidableEq

/-- The button hit-area shape constants `CIRC_BUTTON` / `RECT_BUTTON`. -/
inductive BShape where
  | CIRC_BUTTON
  | RECT_BUTTON
deriving DecidableEq

/-- A button hit area: a circle or a rectangle, per the shape constant. -/
inductive HitArea where
  | circ (c : Circle)
  | rect (r : RectArea)
deriving DecidableEq

def HitArea.contains : HitArea → ℚ → ℚ → Bool
  | .circ c, px, py => c.contains px py
  | .rect r, px, py => r.contains px py

/-- JavaScript `Math.round`: half-up rounding, `⌊q + 1/2⌋`. -/
def jsRound (q : ℚ) : ℤ := ⌊q + 1 / 2⌋

/-- The `checkArea` adjustment from `angle` (degrees, `(-180, 180]`) to
`angleFull` (degrees, `[0, 360)`): add 360 when negative. -/
def angleFullOf (aDeg : ℚ) : ℚ := if aDeg < 0 then aDeg + 360 else aDeg

/-- The `checkArea` quadrant chain: `[45,135) → 1`, `[135,225) → 2`,
`[225,315) → 3`, otherwise `0`. -/
def quadrantOf (af : ℚ) : ℕ :=
  if 45 ≤ af ∧ af < 135 then 1
  else if 135 ≤ af ∧ af < 225 then 2
  else if 225 ≤ af ∧ af < 315 then 3
  else 0

/-- The `checkArea` octant: `45 * Math.round(angleFull / 45)`. -/
def octantOf (af : ℚ) : ℚ := 45 * (jsRound (af / 45) : ℚ)

/-- Modelled from the spec: the quadrant-to-direction map the specification
states (quadrant 0 → right, 1 → down, 2 → left, 3 → up); compared in the
theorems against the if-chain `DPad#moveStick` actually executes. -/
def dirOfQuadrant (q : ℕ) : Dir :=
  if q = 0 then Dir.RIGHT
  else if q = 1 then Dir.DOWN
  else if q = 2 then Dir.LEFT
  else Dir.UP

/-- Updating `line.end` from the pointer under a motion lock, as done at the
top of `Stick#checkDown` and `Stick#moveStick`. -/
def updateLineEnd (l : Line) (ml : MotionLock) (px py : ℚ) : Line :=
  match ml with
  | .NONE => { l with stop := ⟨px, py⟩ }
  | .HORIZONTAL => { l with stop := { l.stop with x := px } }
  | .VERTICAL => { l with stop := { l.stop with y := py } }

/-- The double-precision literal `1.5707963267948966` (π/2) appearing in the
`Stick#x` / `Stick#y` getters, taken at its exact decimal value. -/
def halfPiJs : ℚ := 1.5707963267948966

/-- The double-precision literal `3.141592653589793` (π) appearing in the
`Stick#x` getter, taken at its exact decimal value. -/
def piJs : ℚ := 3.141592653589793

/-- State of a `Phaser.VirtualJoystick.Stick` (sprites dropped; the stick
sprite position always mirrors `stickHitArea`). -/
structure Stick where
  position : Pt
  line : Line
  baseHitArea : Circle
  stickHitArea : Circle
  pointer : Option ℕ
  enabled : Bool
  isDown : Bool
  isUp : Bool
  timeDown : ℚ
  timeUp : ℚ
  angle : ℚ
  angleFull : ℚ
  quadrant : ℕ
  octant : ℚ
  motionLock : MotionLock
  _distance : ℚ
  _deadZone : ℚ
  _scale : ℚ
  _tracking : Bool
  _showOnTouch : Bool
  visible : Bool
deriving DecidableEq

/-- The `Stick` constructor state for base position `(x, y)`, travel
`distance` `dist` and stick sprite width `stickW` (the stick hit area's
diameter is the stick sprite's width). -/
def Stick.init (x y dist stickW : ℚ) : Stick where
  position := ⟨x, y⟩
  line := ⟨⟨x, y⟩, ⟨x, y⟩⟩
  baseHitArea := ⟨x, y, dist⟩
  stickHitArea := ⟨x, y, stickW⟩
  pointer := none
  enabled := true
  isDown := false
  isUp := true
  timeDown := 0
  timeUp := 0
  angle := 0
  angleFull := 0
  quadrant := 0
  octant := 0
  motionLock := .NONE
  _distance := dist
  _deadZone := dist * 0.15
  _scale := 1
  _tracking := false
  _showOnTouch := false
  visible := true

/-- The `distance` getter: `_distance * _scale`. -/
def Stick.distance (s : Stick) : ℚ := s._distance * s._scale

/-- The `deadZone` getter: `_deadZone * _scale`. -/
def Stick.deadZone (s : Stick) : ℚ := s._deadZone * s._scale

/-- The `force` getter: `Math.min(1, line.length / distance * 2)`, with the
host-computed line length passed as `len`. -/
def Stick.force (s : Stick) (len : ℚ) : ℚ := min 1 (len / s.distance * 2)

/-- The `Stick#x` getter, a piecewise-linear function of the host-computed
radian angle `aRad` of the line. -/
def Stick.x : Stick → ℚ → ℚ := fun _ aRad =>
  if 0 ≤ aRad then
    if aRad ≤ halfPiJs then (halfPiJs - aRad) / halfPiJs
    else -1 + ((piJs - aRad) / piJs) * 2
  else
    if -halfPiJs ≤ aRad then |(-halfPiJs - aRad)| / halfPiJs
    else -1 + (|(-piJs - aRad)| / piJs) * 2

/-- The `Stick#y` getter, a piecewise-linear function of the host-computed
radian angle `aRad` of the line. -/
def Stick.y : Stick → ℚ → ℚ := fun _ aRad =>
  if 0 ≤ aRad then 1 - |halfPiJs - aRad| / halfPiJs
  else -1 + |(-halfPiJs) - aRad| / halfPiJs

/-- `Stick#checkArea`: store the degree angle, fold it into `[0,360)`, and
recompute octant and quadrant. `aDeg` is the host's `radToDeg(line.angle)`. -/
def Stick.checkArea (s : Stick) (aDeg : ℚ) : Stick :=
  let af := angleFullOf aDeg
  { s with angle := aDeg, angleFull := af, octant := octantOf af,
           quadrant := quadrantOf af }

/-- `Stick#setDown`: set the down flags and times, end tracking, recompute the
angles, dispatch `onDown`. -/
def Stick.setDown (s : Stick) (now aDeg : ℚ) : Stick × List Ev :=
  (({ s with isDown := true, isUp := false, timeDown := now, timeUp := 0,
             _tracking := false }).checkArea aDeg, [Ev.down])

/-- Handle placement in `Stick#moveStick`: follow the pointer while inside the
base radius, otherwise clamp to the circumference point `lim` supplied by the
host (`baseHitArea.circumferencePoint(line.angle)`), per the motion lock. -/
def Stick.place (s : Stick) (px py len : ℚ) (lim : Pt) : Circle :=
  if len < s.baseHitArea.radius then
    match s.motionLock with
    | .NONE => { s.stickHitArea with x := px, y := py }
    | .HORIZONTAL => { s.stickHitArea with x := px }
    | .VERTICAL => { s.stickHitArea with y := py }
  else
    match s.motionLock with
    | .NONE => { s.stickHitArea with x := lim.x, y := lim.y }
    | .HORIZONTAL => { s.stickHitArea with x := lim.x }
    | .VERTICAL => { s.stickHitArea with y := lim.y }

/-- `Stick#moveStick`: the `Input` move callback. `px py` are the current
coordinates of the bound pointer, `len` the host-computed length of the
updated line and `aDeg` its degree angle. -/
def Stick.moveStick (s : Stick) (now px py len aDeg : ℚ) (lim : Pt) :
    Stick × List Ev :=
  if s.pointer = none ∨ (s.isDown = false ∧ s._tracking = false) then (s, [])
  else
    let s1 := { s with line := updateLineEnd s.line s.motionLock px py }
    let s2 := s1.checkArea aDeg
    if s2.isDown = false ∧ len ≤ s2.deadZone then (s2, [])
    else
      let r := if s2._tracking then s2.setDown now aDeg else (s2, [])
      ({ r.1 with stickHitArea := r.1.place px py len lim }, r.2 ++ [Ev.move])

/-- The `posX` setter (sprite mirrors dropped): reposition everything,
including both ends of the calculation line, guarded by a change check. -/
def Stick.setPosX (s : Stick) (v : ℚ) : Stick :=
  if s.position.x = v then s
  else
    { s with position := { s.position with x := v },
             baseHitArea := { s.baseHitArea with x := v },
             stickHitArea := { s.stickHitArea with x := v },
             line := ⟨{ s.line.start with x := v }, { s.line.stop with x := v }⟩ }

/-- The `posY` setter. -/
def Stick.setPosY (s : Stick) (v : ℚ) : Stick :=
  if s.position.y = v then s
  else
    { s with position := { s.position with y := v },
             baseHitArea := { s.baseHitArea with y := v },
             stickHitArea := { s.stickHitArea with y := v },
             line := ⟨{ s.line.start with y := v }, { s.line.stop with y := v }⟩ }

/-- `Stick#checkDown`: the `Input.onDown` callback for pointer `pid` at
`(px, py)`; `len` and `aDeg` are the host-computed length and degree angle of
the line once its end has been moved to the pointer. -/
def Stick.checkDown (s : Stick) (now : ℚ) (pid : ℕ) (px py len aDeg : ℚ)
    (lim : Pt) : Stick × List Ev :=
  if s.enabled = true ∧ s.isUp = true then
    let s1 := { s with pointer := some pid,
                       line := updateLineEnd s.line s.motionLock px py }
    if s1._showOnTouch then
      let s2 := { s1 with line := { s1.line with start := ⟨px, py⟩ } }
      let s3 := (s2.setPosX px).setPosY py
      Stick.setDown { s3 with visible := true } now aDeg
    else
      if s1.stickHitArea.contains px py then
        if len ≤ s1.deadZone then ({ s1 with _tracking := true }, [])
        else
          let r1 := s1.setDown now aDeg
          let r2 := r1.1.moveStick now px py len aDeg lim
          (r2.1, r1.2 ++ r2.2)
      else (s1, [])
  else (s, [])

/-- `Stick#checkUp`: the `Input.onUp` callback, processed only when the up
pointer is the bound one; resets the handle and line, flips the flags, records
`timeUp`, dispatches `onUp`, and hides a show-on-touch stick. -/
def Stick.checkUp (s : Stick) (now : ℚ) (pid : ℕ) : Stick × List Ev :=
  if s.pointer = some pid then
    ({ s with pointer := none,
              stickHitArea := { s.stickHitArea with x := s.position.x,
                                                    y := s.position.y },
              line := { s.line with stop := s.line.start },
              isDown := false, isUp := true, timeUp := now,
              visible := if s._showOnTouch then false else s.visible },
     [Ev.up])
  else (s, [])

/-- `Stick#update`: the per-frame tick dispatches `onUpdate` while down and not
merely tracking. -/
def Stick.update (s : Stick) : List Ev :=
  if s.isDown = true ∧ s._tracking = false then [Ev.update] else []

/-- State of a `Phaser.VirtualJoystick.DPad`. Unlike `Stick` its constructor
never assigns `motionLock`, and it carries a discrete `direction` and the
sprite's current frame selector. -/
structure DPad where
  position : Pt
  line : Line
  baseHitArea : Circle
  stickHitArea : Circle
  pointer : Option ℕ
  enabled : Bool
  isDown : Bool
  isUp : Bool
  timeDown : ℚ
  timeUp : ℚ
  angle : ℚ
  angleFull : ℚ
  quadrant : ℕ
  octant : ℚ
  direction : Dir
  spriteFrame : DFrame
  _distance : ℚ
  _deadZone : ℚ
  _scale : ℚ
  _tracking : Bool
  _showOnTouch : Bool
  visible : Bool
deriving DecidableEq

/-- The `DPad` constructor state for base position `(x, y)`, travel `distance`
`dist` and dpad sprite width `spriteW`. -/
def DPad.init (x y dist spriteW : ℚ) : DPad where
  position := ⟨x, y⟩
  line := ⟨⟨x, y⟩, ⟨x, y⟩⟩
  baseHitArea := ⟨x, y, dist⟩
  stickHitArea := ⟨x, y, spriteW⟩
  pointer := none
  enabled := true
  isDown := false
  isUp := true
  timeDown := 0
  timeUp := 0
  angle := 0
  angleFull := 0
  quadrant := 0
  octant := 0
  direction := Dir.NONE
  spriteFrame := DFrame.neutral
  _distance := dist
  _deadZone := dist * 0.15
  _scale := 1
  _tracking := false
  _showOnTouch := false
  visible := true

/-- The DPad `deadZone` getter: `_deadZone * _scale`. -/
def DPad.deadZone (s : DPad) : ℚ := s._deadZone * s._scale

/-- `DPad#checkArea`: identical to `Stick#checkArea` (the source duplicates
the code verbatim). -/
def DPad.checkArea (s : DPad) (aDeg : ℚ) : DPad :=
  let af := angleFullOf aDeg
  { s with angle := aDeg, angleFull := af, octant := octantOf af,
           quadrant := quadrantOf af }

/-- `DPad#setDown`. -/
def DPad.setDown (s : DPad) (now aDeg : ℚ) : DPad × List Ev :=
  (({ s with isDown := true, isUp := false, timeDown := now, timeUp := 0,
             _tracking := false }).checkArea aDeg, [Ev.down])

/-- `DPad#moveStick`. The handle-placement block of the source compares
`this.motionLock` with the three lock constants, but the `DPad` constructor
never assigns `motionLock`: every strict-equality comparison is against an
absent property and fails, so the `stickHitArea` is never repositioned and the
block is a no-op here. The direction and frame are then selected from the
quadrant. -/
def DPad.moveStick (s : DPad) (now px py len aDeg : ℚ) : DPad × List Ev :=
  if s.pointer = none ∨ (s.isDown = false ∧ s._tracking = false) then
    ({ s with direction := Dir.NONE, spriteFrame := DFrame.neutral }, [])
  else
    let s1 := { s with line := { s.line with stop := ⟨px, py⟩ } }
    let s2 := s1.checkArea aDeg
    if s2.isDown = false ∧ len ≤ s2.deadZone then
      ({ s2 with direction := Dir.NONE, spriteFrame := DFrame.neutral }, [])
    else
      let r := if s2._tracking then s2.setDown now aDeg else (s2, [])
      let s3 := r.1
      let s4 :=
        if s3.quadrant = 1 then
          { s3 with spriteFrame := DFrame.down, direction := Dir.DOWN }
        else if s3.quadrant = 2 then
          { s3 with spriteFrame := DFrame.left, direction := Dir.LEFT }
        else if s3.quadrant = 3 then
          { s3 with spriteFrame := DFrame.up, direction := Dir.UP }
        else
          { s3 with spriteFrame := DFrame.right, direction := Dir.RIGHT }
      (s4, r.2 ++ [Ev.move])

/-- The DPad `posX` setter. -/
def DPad.setPosX (s : DPad) (v : ℚ) : DPad :=
  if s.position.x = v then s
  else
    { s with position := { s.position with x := v },
             baseHitArea := { s.baseHitArea with x := v },
             stickHitArea := { s.stickHitArea with x := v },
             line := ⟨{ s.line.start with x := v }, { s.line.stop with x := v }⟩ }

/-- The DPad `posY` setter. -/
def DPad.setPosY (s : DPad) (v : ℚ) : DPad :=
  if s.position.y = v then s
  else
    { s with position := { s.position with y := v },
             baseHitArea := { s.baseHitArea with y := v },
             stickHitArea := { s.stickHitArea with y := v },
             line := ⟨{ s.line.start with y := v }, { s.line.stop with y := v }⟩ }

/-- `DPad#checkDown`: like the Stick's but the line end always follows the
pointer (no motion-lock dispatch here in the source). -/
def DPad.checkDown (s : DPad) (now : ℚ) (pid : ℕ) (px py len aDeg : ℚ) :
    DPad × List Ev :=
  if s.enabled = true ∧ s.isUp = true then
    let s1 := { s with pointer := some pid,
                       line := { s.line with stop := ⟨px, py⟩ } }
    if s1._showOnTouch then
      let s2 := { s1 with line := { s1.line with start := ⟨px, py⟩ } }
      let s3 := (s2.setPosX px).setPosY py
      DPad.setDown { s3 with visible := true } now aDeg
    else
      if s1.stickHitArea.contains px py then
        if len ≤ s1.deadZone then ({ s1 with _tracking := true }, [])
        else
          let r1 := s1.setDown now aDeg
          let r2 := r1.1.moveStick now px py len aDeg
          (r2.1, r1.2 ++ r2.2)
      else (s1, [])
  else (s, [])

/-- `DPad#checkUp`: as the Stick's, additionally resetting the frame to
neutral and the direction to `Phaser.NONE`. -/
def DPad.checkUp (s : DPad) (now : ℚ) (pid : ℕ) : DPad × List Ev :=
  if s.pointer = some pid then
    ({ s with pointer := none,
              stickHitArea := { s.stickHitArea with x := s.position.x,
                                                    y := s.position.y },
              spriteFrame := DFrame.neutral,
              line := { s.line with stop := s.line.start },
              isDown := false, isUp := true, direction := Dir.NONE,
              timeUp := now,
              visible := if s._showOnTouch then false else s.visible },
     [Ev.up])
  else (s, [])

/-- `DPad#update`. -/
def DPad.update (s : DPad) : List Ev :=
  if s.isDown = true ∧ s._tracking = false then [Ev.update] else []

/-- State of a `Phaser.VirtualJoystick.Button` (an independent state machine;
the bound key is dropped except for the transitions its own `keyDown` /
`keyUp` callbacks perform). -/
structure Button where
  hitArea : HitArea
  pointer : Option ℕ
  enabled : Bool
  isDown : Bool
  isUp : Bool
  timeDown : ℚ
  timeUp : ℚ
  repeatRate : ℚ
  _timeNext : ℚ
  _scale : ℚ
  frame : BFrame
deriving DecidableEq

/-- The `Button` constructor state: center `(x, y)`, sprite width `w` and
height `h`, and the hit-area shape (`Circle(x, y, width)` or
`Rectangle(x, y, width, height)`). `repeatRate` and `_timeNext` start at 0. -/
def Button.init (x y w h : ℚ) (shape : BShape) : Button where
  hitArea := match shape with
    | .CIRC_BUTTON => .circ ⟨x, y, w⟩
    | .RECT_BUTTON => .rect ⟨x, y, w, h⟩
  pointer := none
  enabled := true
  isDown := false
  isUp := true
  timeDown := 0
  timeUp := 0
  repeatRate := 0
  _timeNext := 0
  _scale := 1
  frame := BFrame.up

/-- `Button#keyDown`: the bound key's down callback. -/
def Button.keyDown (b : Button) (now : ℚ) : Button × List Ev :=
  if b.isDown = false then
    ({ b with frame := BFrame.down, isDown := true, isUp := false,
              timeDown := now, timeUp := 0 }, [Ev.down])
  else (b, [])

/-- `Button#keyUp`: the bound key's up callback. -/
def Button.keyUp (b : Button) (now : ℚ) : Button × List Ev :=
  if b.isDown = true then
    ({ b with frame := BFrame.up, isDown := false, isUp := true,
              timeUp := now }, [Ev.up])
  else (b, [])

/-- `Button#checkDown`: the `Input.onDown` callback. -/
def Button.checkDown (b : Button) (now : ℚ) (pid : ℕ) (px py : ℚ) :
    Button × List Ev :=
  if b.enabled = true ∧ b.isUp = true ∧ b.hitArea.contains px py = true then
    ({ b with pointer := some pid, frame := BFrame.down, isDown := true,
              isUp := false, timeDown := now, timeUp := 0 }, [Ev.down])
  else (b, [])

/-- `Button#checkUp`: the `Input.onUp` callback, processed only for the bound
pointer. -/
def Button.checkUp (b : Button) (now : ℚ) (pid : ℕ) : Button × List Ev :=
  if b.pointer = some pid then
    ({ b with pointer := none, frame := BFrame.up, isDown := false,
              isUp := true, timeUp := now }, [Ev.up])
  else (b, [])

/-- `Button#update`: while down with a positive `repeatRate`, once the current
time reaches `_timeNext` the button re-dispatches `onDown` and schedules the
next fire at `now + repeatRate`. `_timeNext` is never set anywhere else. -/
def Button.update (b : Button) (now : ℚ) : Button × List Ev :=
  if 0 < b.repeatRate ∧ b.isDown = true ∧ b._timeNext ≤ now then
    ({ b with _timeNext := now + b.repeatRate }, [Ev.down])
  else (b, [])

/-- The `duration` getter. While up it returns `timeUp - timeDown`. While down
the source evaluates `this.game.time.time`, but a `Button` has no `game`
property (every other method goes through `this.pad.game`), so the property
read on `undefined` throws a TypeError: modelled as `none`. -/
def Button.duration (b : Button) : Option ℚ :=
  if b.isUp = true then some (b.timeUp - b.timeDown) else none

/-- Deliver a list of per-frame update ticks at the given times to a button,
returning the final state and the times of the ticks that re-dispatched
`onDown`. -/
def Button.runTicks : Button → List ℚ → Button × List ℚ
  | b, [] => (b, [])
  | b, t :: ts =>
    let r := b.update t
    let rest := Button.runTicks r.1 ts
    (rest.1, if r.2.isEmpty then rest.2 else t :: rest.2)

/-- The host input system's handler registry: the listener lists of
`input.onDown` and `input.onUp` and the `input.moveCallbacks` array, holding
the ids of the controls that registered handlers (each control registers one
handler on each in its constructor). -/
structure HostInput where
  downs : List ℕ
  ups : List ℕ
  moves : List ℕ
deriving DecidableEq

/-- The comparison in the move-callback removal loop of `Stick#destroy` and
`DPad#destroy`: the source tests `mc.callback === this.moveStick &&
mc.context === this` where `mc` is the `moveCallbacks` array itself, not the
entry `mc[i]`; an array has no `callback` property, so the left operand is
`undefined` and the strict equality with the control's method is false for
every iteration. -/
def undefinedEqSelf (_self : ℕ) : Bool := false

/-- The `for` loop in `Stick#destroy` / `DPad#destroy` over
`input.moveCallbacks`: splice out the first entry whose comparison succeeds
and break. Because the comparison reads `mc.callback` on the array (see
`undefinedEqSelf`), it never succeeds. -/
def destroyMoveLoop (mc : List ℕ) (self : ℕ) : List ℕ :=
  match mc with
  | [] => []
  | e :: rest =>
    if undefinedEqSelf self then rest else e :: destroyMoveLoop rest self

/-- The host-facing part of `Stick#destroy` / `DPad#destroy` (both run the
same statements): remove the control's `checkDown` listener from
`input.onDown`, its `checkUp` listener from `input.onUp`, and run the
move-callback removal loop. -/
def destroyDeregister (host : HostInput) (self : ℕ) : HostInput :=
  { downs := host.downs.erase self,
    ups := host.ups.erase self,
    moves := destroyMoveLoop host.moves self }

/-- Modelled from the spec: the host's `Line.angle` is the atan2 of the line's
delta converted to degrees by `radToDeg` ("atan2-derived angle of the
base-to-pointer line converted to degrees, range (−180,180]"). A rational
embedding can pin its exact value only where atan2 is rational: on the four
half-axes. `Line.angleDegPinned l a` says the host-supplied degree angle `a`
is consistent with the geometry of `l` in exactly those cases. -/
def Line.angleDegPinned (l : Line) (a : ℚ) : Prop :=
  (l.start.y = l.stop.y ∧ l.start.x < l.stop.x → a = 0) ∧
  (l.start.x = l.stop.x ∧ l.start.y < l.stop.y → a = 90) ∧
  (l.start.x = l.stop.x ∧ l.stop.y < l.start.y → a = -90) ∧
  (l.start.y = l.stop.y ∧ l.stop.x < l.start.x → a = 180)

/-- Modelled from the spec: the radian variant of `Line.angleDegPinned`, with
the values the double-precision atan2 returns on the half-axes — exactly the
constants the `Stick#x` / `Stick#y` getters compare against. -/
def Line.angleRadPinned (l : Line) (a : ℚ) : Prop :=
  (l.start.y = l.stop.y ∧ l.start.x < l.stop.x → a = 0) ∧
  (l.start.x = l.stop.x ∧ l.start.y < l.stop.y → a = halfPiJs) ∧
  (l.start.x = l.stop.x ∧ l.stop.y < l.start.y → a = -halfPiJs) ∧
  (l.start.y = l.stop.y ∧ l.stop.x < l.start.x → a = piJs)

/-- The mutual-exclusion invariant of the down/up flags of a Stick. -/
def StickInv (s : Stick) : Prop := s.isDown = !s.isUp

/-- The mutual-exclusion invariant of the down/up flags of a DPad. -/
def DPadInv (s : DPad) : Prop := s.isDown = !s.isUp

/-- The mutual-exclusion invariant of the down/up flags of a Button. -/
def ButtonInv (b : Button) : Prop := b.isDown = !b.isUp

/-- Modelled from the spec: the quadrant assignment as the specification words
it — half-open intervals `[45,135) → 1`, `[135,225) → 2`, `[225,315) → 3`,
every other value of `[0,360)` → 0 — written as an ascending interval scan to
be compared with the source's `checkArea` chain. -/
def specQuadrant (a : ℚ) : ℕ :=
  if a < 45 then 0
  else if a < 135 then 1
  else if a < 225 then 2
  else if a < 315 then 3
  else 0

/-- A Stick that is down with its line end at base+(30,0), used to
instantiate the force-formula half of the C1 theorem. -/
def c1ForceStick : Stick :=
  { Stick.init 0 0 100 160 with
      pointer := some 1, isDown := true, isUp := false,
      line := ⟨⟨0, 0⟩, ⟨30, 0⟩⟩ }

/-- A DPad that is bound to pointer 1 and already down, used to instantiate
the C2 theorem. -/
def c2DPad : DPad :=
  { DPad.init 0 0 100 16 with pointer := some 1, isDown := true, isUp := false }

/-- A fresh Button with `repeatRate` set to 100, as in the C4 scenario. -/
def c4Button : Button :=
  { Button.init 0 0 40 40 .CIRC_BUTTON with repeatRate := 100 }

/-- The C4 press: pointer 1 presses the button's center at time 0. -/
def c4Press : Button × List Ev := c4Button.checkDown 0 1 0 0

/-- Ten evenly spaced update ticks delivered during a 350 ms hold. -/
def c4TicksEven : List ℚ :=
  [35, 70, 105, 140, 175, 210, 245, 280, 315, 350]

/-- Eleven evenly spaced update ticks delivered during a 350 ms hold. -/
def c4Ticks11 : List ℚ :=
  [350 / 11, 700 / 11, 1050 / 11, 1400 / 11, 1750 / 11, 2100 / 11,
   2450 / 11, 2800 / 11, 3150 / 11, 3500 / 11, 350]

/-- The C3 scenario: a fresh Stick of distance 100 (dead zone 15) receives a
pointer-down at base+(10,0), inside the dead zone, and enters tracking. -/
def c3Tracking : Stick × List Ev :=
  Stick.checkDown (Stick.init 0 0 100 160) 5 1 10 0 10 0 ⟨50, 0⟩

/-- A stick state that was active in quadrant 1 when the pointer went up, used
to instantiate the C10 theorem. -/
def c10Stick : Stick :=
  { Stick.init 0 0 100 160 with
      pointer := some 3, angle := 90, angleFull := 90, quadrant := 1,
      octant := 90 }


/-- The source's quadrant chain only ever produces 0, 1, 2 or 3. -/
theorem quadrantOf_cases (a : ℚ) :
    quadrantOf a = 0 ∨ quadrantOf a = 1 ∨ quadrantOf a = 2 ∨ quadrantOf a = 3 := by
  unfold quadrantOf
  split_ifs <;> simp

theorem quadrantOf_lt45 {a : ℚ} (h : a < 45) : quadrantOf a = 0 := by
  unfold quadrantOf
  rw [if_neg (fun hc => absurd hc.1 (by linarith)),
      if_neg (fun hc => absurd hc.1 (by linarith)),
      if_neg (fun hc => absurd hc.1 (by linarith))]

theorem quadrantOf_in1 {a : ℚ} (h1 : 45 ≤ a) (h2 : a < 135) :
    quadrantOf a = 1 := by
  unfold quadrantOf
  rw [if_pos ⟨h1, h2⟩]

theorem quadrantOf_in2 {a : ℚ} (h1 : 135 ≤ a) (h2 : a < 225) :
    quadrantOf a = 2 := by
  unfold quadrantOf
  rw [if_neg (fun hc => absurd hc.2 (by linarith)), if_pos ⟨h1, h2⟩]

theorem quadrantOf_in3 {a : ℚ} (h1 : 225 ≤ a) (h2 : a < 315) :
    quadrantOf a = 3 := by
  unfold quadrantOf
  rw [if_neg (fun hc => absurd hc.2 (by linarith)),
      if_neg (fun hc => absurd hc.2 (by linarith)), if_pos ⟨h1, h2⟩]

theorem quadrantOf_ge315 {a : ℚ} (h : 315 ≤ a) : quadrantOf a = 0 := by
  unfold quadrantOf
  rw [if_neg (fun hc => absurd hc.2 (by linarith)),
      if_neg (fun hc => absurd hc.2 (by linarith)),
      if_neg (fun hc => absurd hc.2 (by linarith))]

/-- C2: for every angleFull in `[0,360)` the computed quadrant agrees with the
spec's half-open interval assignment (so each boundary 45, 135, 225, 315
belongs to the higher quadrant), and whenever a DPad's move handler
recomputes the direction while the dpad is active the direction equals the
spec's quadrant-to-direction map (0 → right, 1 → down, 2 → left, 3 → up). -/
theorem claim_C2 :
    (∀ a : ℚ, 0 ≤ a → a < 360 → quadrantOf a = specQuadrant a) ∧
    (∀ (s : DPad) (now px py len aDeg : ℚ),
      s.pointer.isSome = true →
      (s.isDown = true ∨ (s._tracking = true ∧ s.deadZone < len)) →
      (s.moveStick now px py len aDeg).1.direction
        = dirOfQuadrant (s.moveStick now px py len aDeg).1.quadrant) := by
  constructor
  · intro a h0 h360
    unfold specQuadrant
    split_ifs with i1 i2 i3 i4
    · exact quadrantOf_lt45 i1
    · exact quadrantOf_in1 (by linarith) i2
    · exact quadrantOf_in2 (by linarith) i3
    · exact quadrantOf_in3 (by linarith) i4
    · exact quadrantOf_ge315 (by linarith)
  · intro s now px py len aDeg hp hact
    have hg1 : ¬ (s.pointer = none ∨ (s.isDown = false ∧ s._tracking = false)) := by
      rintro (h | ⟨h1, h2⟩)
      · rw [h] at hp
        simp at hp
      · rcases hact with hd | ⟨ht, _⟩
        · rw [hd] at h1
          simp at h1
        · rw [ht] at h2
          simp at h2
    obtain ⟨pos, lin, bha, sha, ptr, en, idn, iup, td, tu, ang, af, q, oc,
      dir, fr, dd, dz, sc, tr, sot, vis⟩ := s
    simp only [DPad.moveStick, DPad.checkArea, DPad.setDown, DPad.deadZone] at hg1 ⊢
    rw [if_neg hg1]
    rcases quadrantOf_cases (angleFullOf aDeg) with hq | hq | hq | hq <;>
      split_ifs with hc1 hc2 <;>
        simp_all [dirOfQuadrant, DPad.deadZone] <;>
          linarith

theorem claim_C2_witness :
    quadrantOf 90 = specQuadrant 90 ∧
    (DPad.moveStick c2DPad 0 10 0 10 0).1.direction
      = dirOfQuadrant (DPad.moveStick c2DPad 0 10 0 10 0).1.quadrant :=
  ⟨claim_C2.1 90 (by norm_num) (by norm_num),
   claim_C2.2 c2DPad 0 10 0 10 0 rfl (Or.inl rfl)⟩

/-- C1: for every Stick with a bound pointer and isDown, the force getter
computes `min(1, 2·lineLength/distance)`; and in the scenario of a Stick
created with distance 100 whose handle is pressed at base+(80,0), the press
goes down immediately with force 1, x = 1 and y = 0 (the hypotheses tie the
host-supplied length and angles to the base-to-pointer line `(0,0)-(80,0)`,
pinning them to 80, 0° and 0 rad). -/
theorem claim_C1 :
    (∀ (s : Stick) (len : ℚ), s.pointer.isSome = true → s.isDown = true →
      0 ≤ len → len ^ 2 = s.line.lengthSq →
      s.force len = min 1 (2 * len / s.distance)) ∧
    (∀ (w aDeg aRad len : ℚ) (lim : Pt),
      (Stick.init 0 0 100 w).stickHitArea.contains 80 0 = true →
      0 ≤ len → len ^ 2 = Line.lengthSq ⟨⟨0, 0⟩, ⟨80, 0⟩⟩ →
      Line.angleDegPinned ⟨⟨0, 0⟩, ⟨80, 0⟩⟩ aDeg →
      Line.angleRadPinned ⟨⟨0, 0⟩, ⟨80, 0⟩⟩ aRad →
      ((Stick.checkDown (Stick.init 0 0 100 w) 5 1 80 0 len aDeg lim).1.isDown
          = true ∧
        (Stick.checkDown (Stick.init 0 0 100 w) 5 1 80 0 len aDeg lim).1.force
          len = 1 ∧
        (Stick.checkDown (Stick.init 0 0 100 w) 5 1 80 0 len aDeg lim).1.x
          aRad = 1 ∧
        (Stick.checkDown (Stick.init 0 0 100 w) 5 1 80 0 len aDeg lim).1.y
          aRad = 0)) := by
  constructor
  · intro s len _ _ _ _
    unfold Stick.force
    congr 1
    ring
  · intro w aDeg aRad len lim hco h0 hlen hdeg hrad
    have h2 : len ^ 2 = 6400 := by
      rw [hlen]
      norm_num [Line.lengthSq]
    have hfac : (len - 80) * (len + 80) = 0 := by nlinarith
    have hlen80 : len = 80 := by
      rcases mul_eq_zero.mp hfac with h | h
      · linarith
      · linarith
    have haDeg : aDeg = 0 := hdeg.1 ⟨rfl, by norm_num⟩
    have haRad : aRad = 0 := hrad.1 ⟨rfl, by norm_num⟩
    subst hlen80 haDeg haRad
    have hco2 : Circle.contains ⟨0, 0, w⟩ 80 0 = true := by
      simpa [Stick.init] using hco
    have hnone : ((some 1 : Option ℕ) = none) = False := by simp
    have habs : |(7853981633974483 / 5000000000000000 : ℚ)|
        = 7853981633974483 / 5000000000000000 := abs_of_pos (by norm_num)
    norm_num [Stick.checkDown, Stick.init, Stick.setDown, Stick.checkArea,
      Stick.moveStick, Stick.deadZone, Stick.distance, Stick.force,
      Stick.place, updateLineEnd, angleFullOf, octantOf, quadrantOf, jsRound,
      Stick.x, Stick.y, habs, halfPiJs, piJs, Circle.radius, hco2, hnone]

theorem claim_C1_witness :
    (c1ForceStick.force 30 = min 1 (2 * 30 / c1ForceStick.distance)) ∧
    ((Stick.checkDown (Stick.init 0 0 100 200) 5 1 80 0 80 0 ⟨50, 0⟩).1.force
      80 = 1) :=
  ⟨claim_C1.1 c1ForceStick 30 rfl rfl (by norm_num)
      (by norm_num [c1ForceStick, Stick.init, Line.lengthSq]),
   (claim_C1.2 200 0 0 80 ⟨50, 0⟩
      (by norm_num [Stick.init, Circle.contains, Circle.radius])
      (by norm_num) (by norm_num [Line.lengthSq])
      ⟨fun _ => rfl, fun hc => absurd hc.1 (by norm_num),
       fun hc => absurd hc.1 (by norm_num),
       fun hc => absurd hc.2 (by norm_num)⟩
      ⟨fun _ => rfl, fun hc => absurd hc.1 (by norm_num),
       fun hc => absurd hc.1 (by norm_num),
       fun hc => absurd hc.2 (by norm_num)⟩).2.1⟩

/-- C3 states that a tracking Stick with the pointer strictly inside the dead
zone reads force 0. The force getter has no down/tracking guard: this
concrete tracking Stick (distance 100, dead zone 15, pointer at distance 10
from the base) reads force `min(1, 2·10/100) = 1/5 ≠ 0`. -/
theorem counterexample_C3 :
    c3Tracking.1._tracking = true ∧
    c3Tracking.1.isDown = false ∧
    c3Tracking.2 = [] ∧
    ((10 : ℚ) ^ 2 = c3Tracking.1.line.lengthSq ∧
      (10 : ℚ) < c3Tracking.1.deadZone) ∧
    c3Tracking.1.force 10 = 1 / 5 ∧
    ¬ c3Tracking.1.force 10 = 0 := by
  refine ⟨?_, ?_, ?_, ⟨?_, ?_⟩, ?_, ?_⟩ <;>
    norm_num [c3Tracking, Stick.checkDown, Stick.init, Stick.deadZone,
      Stick.distance, Stick.force, updateLineEnd, Line.lengthSq,
      Circle.contains, Circle.radius]

/-- C3 amended: for every Stick in the tracking sub-state and every pointer
position at distance strictly less than the dead zone from the base, the move
handler dispatches nothing (in particular no down notification) and leaves
isDown false; the force property reads `min(1, 2·lineLength/distance)` —
positive unless the pointer sits exactly on the base — rather than 0. -/
theorem claim_C3 :
    ∀ (s : Stick) (now px py len aDeg : ℚ) (lim : Pt),
      s.pointer.isSome = true → s.isDown = false → s._tracking = true →
      0 ≤ len → len < s.deadZone →
      ((s.moveStick now px py len aDeg lim).2 = [] ∧
        (s.moveStick now px py len aDeg lim).1.isDown = false ∧
        (s.moveStick now px py len aDeg lim).1.force len
          = min 1 (2 * len / s.distance)) := by
  intro s now px py len aDeg lim hp hd ht h0 hlt
  have hg1 : ¬ (s.pointer = none ∨ (s.isDown = false ∧ s._tracking = false)) := by
    rintro (h | ⟨_, h2⟩)
    · rw [h] at hp
      simp at hp
    · rw [ht] at h2
      simp at h2
  obtain ⟨pos, lin, bha, sha, ptr, en, idn, iup, td, tu, ang, af, q, oc,
    ml, dd, dz, sc, tr, sot, vis⟩ := s
  simp only [Stick.moveStick, Stick.checkArea, Stick.deadZone, Stick.distance,
    Stick.force] at hg1 hlt ⊢
  rw [if_neg hg1]
  simp only at hd
  rw [if_pos ⟨hd, le_of_lt hlt⟩]
  refine ⟨rfl, hd, ?_⟩
  simp only
  congr 1
  ring

theorem claim_C3_witness :
    (c3Tracking.1.moveStick 6 10 0 10 0 ⟨50, 0⟩).2 = [] ∧
    (c3Tracking.1.moveStick 6 10 0 10 0 ⟨50, 0⟩).1.isDown = false ∧
    (c3Tracking.1.moveStick 6 10 0 10 0 ⟨50, 0⟩).1.force 10
      = min 1 (2 * 10 / c3Tracking.1.distance) :=
  claim_C3 c3Tracking.1 6 10 0 10 0 ⟨50, 0⟩
    (by norm_num [c3Tracking, Stick.checkDown, Stick.init, updateLineEnd,
      Stick.deadZone, Circle.contains, Circle.radius])
    (by norm_num [c3Tracking, Stick.checkDown, Stick.init, updateLineEnd,
      Stick.deadZone, Circle.contains, Circle.radius])
    (by norm_num [c3Tracking, Stick.checkDown, Stick.init, updateLineEnd,
      Stick.deadZone, Circle.contains, Circle.radius])
    (by norm_num)
    (by norm_num [c3Tracking, Stick.checkDown, Stick.init, updateLineEnd,
      Stick.deadZone, Circle.contains, Circle.radius])

/-- C4 states that holding a `repeatRate = 100` button for 350 ms with at
least 10 evenly spaced update ticks produces exactly 3 additional down
notifications regardless of tick timing. With the 10 evenly spaced ticks
35, 70, …, 350 the code fires 4 additional notifications — at 35, 140, 245
and 350 ms — because `_timeNext` still holds its initial value 0 when the
first tick arrives (no handler sets it on press). -/
theorem counterexample_C4 :
    c4Press.2 = [Ev.down] ∧
    c4Press.1.isDown = true ∧
    (c4Press.1.runTicks c4TicksEven).2 = [35, 140, 245, 350] ∧
    ¬ (c4Press.1.runTicks c4TicksEven).2.length = 3 := by
  refine ⟨?_, ?_, ?_, ?_⟩ <;>
    norm_num [c4Press, c4Button, c4TicksEven, Button.checkDown, Button.init,
      Button.update, Button.runTicks, HitArea.contains, Circle.contains,
      Circle.radius]

/-- C4 amended: pressing a fresh `repeatRate = 100` button at time 0 and
holding it for 350 ms re-fires the down notification at the first update tick
(the scheduled next-fire timestamp starts at 0 and is only advanced inside
`update`), then roughly every 100 ms re-anchored to actual tick times: with
the 10 evenly spaced ticks it fires exactly 4 extra times (35, 140, 245,
350 ms), and the count is not independent of tick granularity — 11 evenly
spaced ticks over the same hold give exactly 3. -/
theorem claim_C4 :
    (c4Press.1.runTicks c4TicksEven).2 = [35, 140, 245, 350] ∧
    (c4Press.1.runTicks c4Ticks11).2.length = 3 := by
  constructor <;>
    norm_num [c4Press, c4Button, c4TicksEven, c4Ticks11, Button.checkDown,
      Button.init, Button.update, Button.runTicks, HitArea.contains,
      Circle.contains, Circle.radius]

theorem stickInv_init (x y d w : ℚ) : StickInv (Stick.init x y d w) := rfl

theorem stickInv_setDown (s : Stick) (now aDeg : ℚ) :
    StickInv (s.setDown now aDeg).1 := by
  simp [Stick.setDown, Stick.checkArea, StickInv]

theorem stickInv_moveStick (s : Stick) (now px py len aDeg : ℚ) (lim : Pt)
    (h : StickInv s) : StickInv (s.moveStick now px py len aDeg lim).1 := by
  unfold StickInv at *
  simp only [Stick.moveStick, Stick.checkArea, Stick.setDown]
  split_ifs <;> simp_all

theorem stickInv_checkDown (s : Stick) (now : ℚ) (pid : ℕ)
    (px py len aDeg : ℚ) (lim : Pt) (h : StickInv s) :
    StickInv (s.checkDown now pid px py len aDeg lim).1 := by
  simp only [Stick.checkDown]
  split_ifs with hg hsot hco hdz
  · exact stickInv_setDown _ _ _
  · unfold StickInv at h ⊢
    simpa using h
  · exact stickInv_moveStick _ _ _ _ _ _ _ (stickInv_setDown _ _ _)
  · unfold StickInv at h ⊢
    simpa using h
  · exact h

theorem stickInv_checkUp (s : Stick) (now : ℚ) (pid : ℕ) (h : StickInv s) :
    StickInv (s.checkUp now pid).1 := by
  unfold StickInv at *
  simp only [Stick.checkUp]
  split_ifs <;> simp_all

theorem dpadInv_init (x y d w : ℚ) : DPadInv (DPad.init x y d w) := rfl

theorem dpadInv_setDown (s : DPad) (now aDeg : ℚ) :
    DPadInv (s.setDown now aDeg).1 := by
  simp [DPad.setDown, DPad.checkArea, DPadInv]

theorem dpadInv_moveStick (s : DPad) (now px py len aDeg : ℚ)
    (h : DPadInv s) : DPadInv (s.moveStick now px py len aDeg).1 := by
  unfold DPadInv at *
  simp only [DPad.moveStick, DPad.checkArea, DPad.setDown]
  split_ifs <;> simp_all

theorem dpadInv_checkDown (s : DPad) (now : ℚ) (pid : ℕ) (px py len aDeg : ℚ)
    (h : DPadInv s) : DPadInv (s.checkDown now pid px py len aDeg).1 := by
  simp only [DPad.checkDown]
  split_ifs with hg hsot hco hdz
  · exact dpadInv_setDown _ _ _
  · unfold DPadInv at h ⊢
    simpa using h
  · exact dpadInv_moveStick _ _ _ _ _ _ (dpadInv_setDown _ _ _)
  · unfold DPadInv at h ⊢
    simpa using h
  · exact h

theorem dpadInv_checkUp (s : DPad) (now : ℚ) (pid : ℕ) (h : DPadInv s) :
    DPadInv (s.checkUp now pid).1 := by
  unfold DPadInv at *
  simp only [DPad.checkUp]
  split_ifs <;> simp_all

theorem buttonInv_init (x y w hgt : ℚ) (sh : BShape) :
    ButtonInv (Button.init x y w hgt sh) := rfl

theorem buttonInv_checkDown (b : Button) (now : ℚ) (pid : ℕ) (px py : ℚ)
    (h : ButtonInv b) : ButtonInv (b.checkDown now pid px py).1 := by
  unfold ButtonInv at *
  simp only [Button.checkDown]
  split_ifs <;> simp_all

theorem buttonInv_checkUp (b : Button) (now : ℚ) (pid : ℕ) (h : ButtonInv b) :
    ButtonInv (b.checkUp now pid).1 := by
  unfold ButtonInv at *
  simp only [Button.checkUp]
  split_ifs <;> simp_all

theorem buttonInv_keyDown (b : Button) (now : ℚ) (h : ButtonInv b) :
    ButtonInv (b.keyDown now).1 := by
  unfold ButtonInv at *
  simp only [Button.keyDown]
  split_ifs <;> simp_all

theorem buttonInv_keyUp (b : Button) (now : ℚ) (h : ButtonInv b) :
    ButtonInv (b.keyUp now).1 := by
  unfold ButtonInv at *
  simp only [Button.keyUp]
  split_ifs <;> simp_all

theorem buttonInv_update (b : Button) (now : ℚ) (h : ButtonInv b) :
    ButtonInv (b.update now).1 := by
  unfold ButtonInv at *
  simp only [Button.update]
  split_ifs <;> simp_all

/-- C8: exactly one of isDown/isUp holds at all times for Sticks, DPads and
Buttons: both flags start as down=false/up=true at construction, and every
handler (pointer down, pointer up, move, key down, key up, the internal
setDown and the per-frame update) preserves the mutual exclusion, with the
transition handlers always assigning the two flags opposite values. -/
theorem claim_C8 :
    (∀ x y d w : ℚ, StickInv (Stick.init x y d w)) ∧
    (∀ (s : Stick) (now : ℚ) (pid : ℕ) (px py len aDeg : ℚ) (lim : Pt),
      StickInv s → StickInv (s.checkDown now pid px py len aDeg lim).1) ∧
    (∀ (s : Stick) (now : ℚ) (pid : ℕ),
      StickInv s → StickInv (s.checkUp now pid).1) ∧
    (∀ (s : Stick) (now px py len aDeg : ℚ) (lim : Pt),
      StickInv s → StickInv (s.moveStick now px py len aDeg lim).1) ∧
    (∀ (s : Stick) (now aDeg : ℚ), StickInv (s.setDown now aDeg).1) ∧
    (∀ x y d w : ℚ, DPadInv (DPad.init x y d w)) ∧
    (∀ (s : DPad) (now : ℚ) (pid : ℕ) (px py len aDeg : ℚ),
      DPadInv s → DPadInv (s.checkDown now pid px py len aDeg).1) ∧
    (∀ (s : DPad) (now : ℚ) (pid : ℕ),
      DPadInv s → DPadInv (s.checkUp now pid).1) ∧
    (∀ (s : DPad) (now px py len aDeg : ℚ),
      DPadInv s → DPadInv (s.moveStick now px py len aDeg).1) ∧
    (∀ (s : DPad) (now aDeg : ℚ), DPadInv (s.setDown now aDeg).1) ∧
    (∀ (x y w hgt : ℚ) (sh : BShape), ButtonInv (Button.init x y w hgt sh)) ∧
    (∀ (b : Button) (now : ℚ) (pid : ℕ) (px py : ℚ),
      ButtonInv b → ButtonInv (b.checkDown now pid px py).1) ∧
    (∀ (b : Button) (now : ℚ) (pid : ℕ),
      ButtonInv b → ButtonInv (b.checkUp now pid).1) ∧
    (∀ (b : Button) (now : ℚ), ButtonInv b → ButtonInv (b.keyDown now).1) ∧
    (∀ (b : Button) (now : ℚ), ButtonInv b → ButtonInv (b.keyUp now).1) ∧
    (∀ (b : Button) (now : ℚ), ButtonInv b → ButtonInv (b.update now).1) :=
  ⟨stickInv_init, fun s now pid px py len aDeg lim =>
      stickInv_checkDown s now pid px py len aDeg lim,
   fun s now pid => stickInv_checkUp s now pid,
   fun s now px py len aDeg lim => stickInv_moveStick s now px py len aDeg lim,
   stickInv_setDown, dpadInv_init,
   fun s now pid px py len aDeg => dpadInv_checkDown s now pid px py len aDeg,
   fun s now pid => dpadInv_checkUp s now pid,
   fun s now px py len aDeg => dpadInv_moveStick s now px py len aDeg,
   dpadInv_setDown, buttonInv_init,
   fun b now pid px py => buttonInv_checkDown b now pid px py,
   fun b now pid => buttonInv_checkUp b now pid,
   fun b now => buttonInv_keyDown b now,
   fun b now => buttonInv_keyUp b now,
   fun b now => buttonInv_update b now⟩

theorem claim_C8_witness :
    StickInv (Stick.checkDown (Stick.init 0 0 100 200) 5 1 80 0 80 0
      ⟨50, 0⟩).1 :=
  claim_C8.2.1 (Stick.init 0 0 100 200) 5 1 80 0 80 0 ⟨50, 0⟩ rfl

theorem updateLineEnd_start (l : Line) (ml : MotionLock) (px py : ℚ) :
    (updateLineEnd l ml px py).start = l.start := by
  cases ml <;> rfl

theorem stick_place_diameter (s : Stick) (px py len : ℚ) (lim : Pt) :
    (s.place px py len lim).diameter = s.stickHitArea.diameter := by
  unfold Stick.place
  split_ifs <;> cases s.motionLock <;> rfl

theorem stick_setDown_pointer (s : Stick) (now aDeg : ℚ) :
    (s.setDown now aDeg).1.pointer = s.pointer := by
  simp [Stick.setDown, Stick.checkArea]

theorem stick_setDown_position (s : Stick) (now aDeg : ℚ) :
    (s.setDown now aDeg).1.position = s.position := by
  simp [Stick.setDown, Stick.checkArea]

theorem stick_setDown_line (s : Stick) (now aDeg : ℚ) :
    (s.setDown now aDeg).1.line = s.line := by
  simp [Stick.setDown, Stick.checkArea]

theorem stick_setDown_stickHitArea (s : Stick) (now aDeg : ℚ) :
    (s.setDown now aDeg).1.stickHitArea = s.stickHitArea := by
  simp [Stick.setDown, Stick.checkArea]

theorem stick_moveStick_pointer (s : Stick) (now px py len aDeg : ℚ)
    (lim : Pt) : (s.moveStick now px py len aDeg lim).1.pointer = s.pointer := by
  simp only [Stick.moveStick, Stick.checkArea]
  split_ifs <;>
    simp [Stick.checkArea, stick_setDown_pointer]

theorem stick_moveStick_position (s : Stick) (now px py len aDeg : ℚ)
    (lim : Pt) :
    (s.moveStick now px py len aDeg lim).1.position = s.position := by
  simp only [Stick.moveStick, Stick.checkArea]
  split_ifs <;>
    simp [Stick.checkArea, stick_setDown_position]

theorem stick_moveStick_lineStart (s : Stick) (now px py len aDeg : ℚ)
    (lim : Pt) :
    (s.moveStick now px py len aDeg lim).1.line.start = s.line.start := by
  simp only [Stick.moveStick, Stick.checkArea]
  split_ifs <;>
    simp [Stick.checkArea, stick_setDown_line, updateLineEnd_start]

theorem stick_moveStick_stickDiameter (s : Stick) (now px py len aDeg : ℚ)
    (lim : Pt) :
    (s.moveStick now px py len aDeg lim).1.stickHitArea.diameter
      = s.stickHitArea.diameter := by
  simp only [Stick.moveStick, Stick.checkArea]
  split_ifs <;>
    simp [Stick.checkArea, stick_place_diameter, stick_setDown_stickHitArea]

theorem dpad_setDown_pointer (s : DPad) (now aDeg : ℚ) :
    (s.setDown now aDeg).1.pointer = s.pointer := by
  simp [DPad.setDown, DPad.checkArea]

theorem dpad_setDown_position (s : DPad) (now aDeg : ℚ) :
    (s.setDown now aDeg).1.position = s.position := by
  simp [DPad.setDown, DPad.checkArea]

theorem dpad_setDown_line (s : DPad) (now aDeg : ℚ) :
    (s.setDown now aDeg).1.line = s.line := by
  simp [DPad.setDown, DPad.checkArea]

theorem dpad_setDown_stickHitArea (s : DPad) (now aDeg : ℚ) :
    (s.setDown now aDeg).1.stickHitArea = s.stickHitArea := by
  simp [DPad.setDown, DPad.checkArea]

theorem dpad_moveStick_pointer (s : DPad) (now px py len aDeg : ℚ) :
    (s.moveStick now px py len aDeg).1.pointer = s.pointer := by
  simp only [DPad.moveStick, DPad.checkArea]
  split_ifs <;>
    simp [DPad.checkArea, dpad_setDown_pointer]

theorem dpad_moveStick_position (s : DPad) (now px py len aDeg : ℚ) :
    (s.moveStick now px py len aDeg).1.position = s.position := by
  simp only [DPad.moveStick, DPad.checkArea]
  split_ifs <;>
    simp [DPad.checkArea, dpad_setDown_position]

theorem dpad_moveStick_lineStart (s : DPad) (now px py len aDeg : ℚ) :
    (s.moveStick now px py len aDeg).1.line.start = s.line.start := by
  simp only [DPad.moveStick, DPad.checkArea]
  split_ifs <;>
    simp [DPad.checkArea, dpad_setDown_line]

theorem dpad_moveStick_stickHitArea (s : DPad) (now px py len aDeg : ℚ) :
    (s.moveStick now px py len aDeg).1.stickHitArea = s.stickHitArea := by
  simp only [DPad.moveStick, DPad.checkArea]
  split_ifs <;>
    simp [DPad.checkArea, dpad_setDown_stickHitArea]

/-- C5: for a Stick or a DPad starting from the neutral up state, a
pointer-down landing on the handle at distance greater than the dead zone,
immediately followed by a pointer-up from the same pointer, restores
isUp = true and isDown = false, puts the handle hit area and the tracking
line back to exactly their pre-down values (handle centered on the base), and
makes the force read 0 (Stick) and the direction `NONE` (DPad); the up
notification is dispatched. -/
theorem claim_C5 :
    (∀ (x y dist w now now2 px py len aDeg : ℚ) (pid : ℕ) (lim : Pt)
       (r : Stick × List Ev),
      (Stick.init x y dist w).stickHitArea.contains px py = true →
      (Stick.init x y dist w).deadZone < len →
      r = Stick.checkUp
            (Stick.checkDown (Stick.init x y dist w) now pid px py len aDeg
              lim).1 now2 pid →
      (r.1.isUp = true ∧ r.1.isDown = false ∧
        r.1.stickHitArea = (Stick.init x y dist w).stickHitArea ∧
        r.1.line = (Stick.init x y dist w).line ∧
        (∀ len2 : ℚ, 0 ≤ len2 → len2 ^ 2 = r.1.line.lengthSq →
          r.1.force len2 = 0) ∧
        r.2 = [Ev.up])) ∧
    (∀ (x y dist w now now2 px py len aDeg : ℚ) (pid : ℕ)
       (r : DPad × List Ev),
      (DPad.init x y dist w).stickHitArea.contains px py = true →
      (DPad.init x y dist w).deadZone < len →
      r = DPad.checkUp
            (DPad.checkDown (DPad.init x y dist w) now pid px py len aDeg).1
            now2 pid →
      (r.1.isUp = true ∧ r.1.isDown = false ∧
        r.1.direction = Dir.NONE ∧
        r.1.direction = (DPad.init x y dist w).direction ∧
        r.1.stickHitArea = (DPad.init x y dist w).stickHitArea ∧
        r.1.line = (DPad.init x y dist w).line ∧
        r.2 = [Ev.up])) := by
  constructor
  · intro x y dist w now now2 px py len aDeg pid lim r hco hdz hr
    have hD : (Stick.checkDown (Stick.init x y dist w) now pid px py len aDeg
        lim).1
        = (Stick.moveStick
            ((Stick.setDown
              { Stick.init x y dist w with
                  pointer := some pid,
                  line := updateLineEnd (Stick.init x y dist w).line
                    (Stick.init x y dist w).motionLock px py }
              now aDeg).1)
            now px py len aDeg lim).1 := by
      simp only [Stick.checkDown]
      split_ifs with h1 h2 h3
      · exfalso
        simp [Stick.init] at h2
      · exfalso
        simp only [Stick.deadZone, Stick.init] at h3 hdz
        linarith
      · rfl
      · exact absurd ⟨rfl, rfl⟩ h1
    set sD := (Stick.checkDown (Stick.init x y dist w) now pid px py len aDeg
      lim).1 with hsD
    have hp : sD.pointer = some pid := by
      rw [hD, stick_moveStick_pointer, stick_setDown_pointer]
    have hpos : sD.position = ⟨x, y⟩ := by
      rw [hD, stick_moveStick_position, stick_setDown_position]
      rfl
    have hstart : sD.line.start = ⟨x, y⟩ := by
      rw [hD, stick_moveStick_lineStart, stick_setDown_line,
        updateLineEnd_start]
      rfl
    have hdiam : sD.stickHitArea.diameter = w := by
      rw [hD, stick_moveStick_stickDiameter, stick_setDown_stickHitArea]
      rfl
    have hru : r = ({ sD with
        pointer := none,
        stickHitArea := { sD.stickHitArea with x := sD.position.x, y := sD.position.y },
        line := { sD.line with stop := sD.line.start },
        isDown := false, isUp := true, timeUp := now2,
        visible := if sD._showOnTouch then false else sD.visible }, [Ev.up]) := by
      rw [hr]
      simp [Stick.checkUp, hp]
    have hline : r.1.line = (Stick.init x y dist w).line := by
      rw [hru]
      simp only [Stick.init]
      rw [hstart]
    refine ⟨by rw [hru], by rw [hru], ?_, hline, ?_, by rw [hru]⟩
    · rw [hru]
      simp only [Stick.init]
      rw [hpos, hdiam]
    · intro len2 h0 hlen2
      have hz : len2 ^ 2 = 0 := by
        rw [hlen2, hline]
        simp [Stick.init, Line.lengthSq]
      have hl0 : len2 = 0 := by
        exact (pow_eq_zero_iff (by norm_num : (2 : ℕ) ≠ 0)).mp hz
      rw [hl0]
      simp [Stick.force]
  · intro x y dist w now now2 px py len aDeg pid r hco hdz hr
    have hD : (DPad.checkDown (DPad.init x y dist w) now pid px py len
        aDeg).1
        = (DPad.moveStick
            ((DPad.setDown
              { DPad.init x y dist w with
                  pointer := some pid,
                  line := { (DPad.init x y dist w).line with
                              stop := ⟨px, py⟩ } }
              now aDeg).1)
            now px py len aDeg).1 := by
      simp only [DPad.checkDown]
      split_ifs with h1 h2 h3
      · exfalso
        simp [DPad.init] at h2
      · exfalso
        simp only [DPad.deadZone, DPad.init] at h3 hdz
        linarith
      · rfl
      · exact absurd ⟨rfl, rfl⟩ h1
    set sD := (DPad.checkDown (DPad.init x y dist w) now pid px py len
      aDeg).1 with hsD
    have hp : sD.pointer = some pid := by
      rw [hD, dpad_moveStick_pointer, dpad_setDown_pointer]
    have hpos : sD.position = ⟨x, y⟩ := by
      rw [hD, dpad_moveStick_position, dpad_setDown_position]
      rfl
    have hstart : sD.line.start = ⟨x, y⟩ := by
      rw [hD, dpad_moveStick_lineStart, dpad_setDown_line]
      rfl
    have hdiam : sD.stickHitArea.diameter = w := by
      rw [hD, dpad_moveStick_stickHitArea, dpad_setDown_stickHitArea]
      rfl
    have hru : r = ({ sD with
        pointer := none,
        stickHitArea := { sD.stickHitArea with x := sD.position.x, y := sD.position.y },
        spriteFrame := DFrame.neutral,
        line := { sD.line with stop := sD.line.start },
        isDown := false, isUp := true, direction := Dir.NONE,
        timeUp := now2,
        visible := if sD._showOnTouch then false else sD.visible }, [Ev.up]) := by
      rw [hr]
      simp [DPad.checkUp, hp]
    refine ⟨by rw [hru], by rw [hru], by rw [hru], ?_, ?_, ?_, by rw [hru]⟩
    · rw [hru]
      simp [DPad.init]
    · rw [hru]
      simp only [DPad.init]
      rw [hpos, hdiam]
    · rw [hru]
      simp only [DPad.init]
      rw [hstart]

theorem claim_C5_witness :
    ((Stick.checkUp
        (Stick.checkDown (Stick.init 0 0 100 200) 5 1 80 0 80 0 ⟨50, 0⟩).1
        9 1).1.isUp = true ∧
      (Stick.checkUp
        (Stick.checkDown (Stick.init 0 0 100 200) 5 1 80 0 80 0 ⟨50, 0⟩).1
        9 1).1.isDown = false ∧
      (Stick.checkUp
        (Stick.checkDown (Stick.init 0 0 100 200) 5 1 80 0 80 0 ⟨50, 0⟩).1
        9 1).1.stickHitArea = (Stick.init 0 0 100 200).stickHitArea ∧
      (Stick.checkUp
        (Stick.checkDown (Stick.init 0 0 100 200) 5 1 80 0 80 0 ⟨50, 0⟩).1
        9 1).1.line = (Stick.init 0 0 100 200).line ∧
      (∀ len2 : ℚ, 0 ≤ len2 →
        len2 ^ 2 = (Stick.checkUp
          (Stick.checkDown (Stick.init 0 0 100 200) 5 1 80 0 80 0 ⟨50, 0⟩).1
          9 1).1.line.lengthSq →
        (Stick.checkUp
          (Stick.checkDown (Stick.init 0 0 100 200) 5 1 80 0 80 0 ⟨50, 0⟩).1
          9 1).1.force len2 = 0) ∧
      (Stick.checkUp
        (Stick.checkDown (Stick.init 0 0 100 200) 5 1 80 0 80 0 ⟨50, 0⟩).1
        9 1).2 = [Ev.up]) :=
  claim_C5.1 0 0 100 200 5 9 80 0 80 0 1 ⟨50, 0⟩ _
    (by norm_num [Stick.init, Circle.contains, Circle.radius])
    (by norm_num [Stick.init, Stick.deadZone]) rfl

/-- C9: for every control (Stick, DPad or Button) and every pointer-up event
whose pointer is not the pointer currently bound to that control, the up
handler is a silent no-op: the state is returned unchanged and no
notification is dispatched. -/
theorem claim_C9 :
    (∀ (s : Stick) (now : ℚ) (pid : ℕ), ¬ s.pointer = some pid →
      Stick.checkUp s now pid = (s, [])) ∧
    (∀ (s : DPad) (now : ℚ) (pid : ℕ), ¬ s.pointer = some pid →
      DPad.checkUp s now pid = (s, [])) ∧
    (∀ (b : Button) (now : ℚ) (pid : ℕ), ¬ b.pointer = some pid →
      Button.checkUp b now pid = (b, [])) := by
  refine ⟨fun s now pid h => ?_, fun s now pid h => ?_, fun b now pid h => ?_⟩
  · simp [Stick.checkUp, h]
  · simp [DPad.checkUp, h]
  · simp [Button.checkUp, h]

theorem claim_C9_witness :
    Stick.checkUp { Stick.init 0 0 100 160 with pointer := some 1 } 7 2
      = ({ Stick.init 0 0 100 160 with pointer := some 1 }, []) :=
  claim_C9.1 { Stick.init 0 0 100 160 with pointer := some 1 } 7 2 (by decide)

/-- C10: for every Stick or DPad, the pointer-up handler (in its matched case)
resets exactly the pointer binding, handle position, tracking line end,
isDown/isUp, timeUp, the show-on-touch visibility and (for DPad) the
direction and frame; in particular the derived angle, angleFull, quadrant and
octant fields are left at the values last computed while active. -/
theorem claim_C10 :
    (∀ (s : Stick) (now : ℚ) (pid : ℕ), s.pointer = some pid →
      Stick.checkUp s now pid =
        ({ s with pointer := none,
                  stickHitArea := { s.stickHitArea with x := s.position.x,
                                                        y := s.position.y },
                  line := { s.line with stop := s.line.start },
                  isDown := false, isUp := true, timeUp := now,
                  visible := if s._showOnTouch then false else s.visible },
         [Ev.up]) ∧
      (Stick.checkUp s now pid).1.angle = s.angle ∧
      (Stick.checkUp s now pid).1.angleFull = s.angleFull ∧
      (Stick.checkUp s now pid).1.quadrant = s.quadrant ∧
      (Stick.checkUp s now pid).1.octant = s.octant) ∧
    (∀ (s : DPad) (now : ℚ) (pid : ℕ), s.pointer = some pid →
      DPad.checkUp s now pid =
        ({ s with pointer := none,
                  stickHitArea := { s.stickHitArea with x := s.position.x,
                                                        y := s.position.y },
                  spriteFrame := DFrame.neutral,
                  line := { s.line with stop := s.line.start },
                  isDown := false, isUp := true, direction := Dir.NONE,
                  timeUp := now,
                  visible := if s._showOnTouch then false else s.visible },
         [Ev.up]) ∧
      (DPad.checkUp s now pid).1.angle = s.angle ∧
      (DPad.checkUp s now pid).1.angleFull = s.angleFull ∧
      (DPad.checkUp s now pid).1.quadrant = s.quadrant ∧
      (DPad.checkUp s now pid).1.octant = s.octant) := by
  constructor
  · intro s now pid h
    simp [Stick.checkUp, h]
  · intro s now pid h
    simp [DPad.checkUp, h]

theorem claim_C10_witness :
    (Stick.checkUp c10Stick 7 3).1.quadrant = c10Stick.quadrant :=
  (claim_C10.1 c10Stick 7 3 rfl).2.2.2.1

/-- C7: the claim states `duration` returns the elapsed time since `timeDown`
while the button is down, and `timeUp - timeDown` while it is up. The second
half holds, but while the button is down the getter evaluates
`this.game.time.time` and a `Button` has no `game` property (its game
reference is `this.pad.game`), so reading `duration` on a held button throws
a TypeError (modelled by `none`) instead of returning the elapsed time. This
theorem evaluates the getter at the failing input: a button pressed at time
100 and still held. -/
theorem claim_C7 :
    ((Button.checkDown (Button.init 0 0 40 40 .CIRC_BUTTON) 100 1 0 0).1.isDown
      = true) ∧
    ((Button.checkDown (Button.init 0 0 40 40 .CIRC_BUTTON) 100 1 0 0).1.duration
      = none) ∧
    ((Button.checkUp
        (Button.checkDown (Button.init 0 0 40 40 .CIRC_BUTTON) 100 1 0 0).1
        250 1).1.duration = some 150) := by
  refine ⟨?_, ?_, ?_⟩ <;>
    norm_num [Button.checkDown, Button.checkUp, Button.duration, Button.init,
      HitArea.contains, Circle.contains, Circle.radius]

/-- C6: the claim states `destroy()` deregisters all pointer-down, pointer-up
and pointer-move handlers so that later synthetic pointer events change
nothing. The down and up listeners are removed, but the move-callback removal
loop compares `mc.callback` — a property of the `moveCallbacks` array itself,
which is `undefined` — instead of `mc[i].callback`, so the move handler is
never removed: a host with the single control 7 registered still holds its
move callback after destroy, the loop removes nothing from any list, and a
destroyed DPad that was pushed left when destroyed still has its `direction`
overwritten to `NONE` by the next pointer-move event. -/
theorem claim_C6 :
    (destroyDeregister ⟨[7], [7], [7]⟩ 7 = ⟨[], [], [7]⟩) ∧
    (destroyMoveLoop [3, 7, 9] 7 = [3, 7, 9]) ∧
    ((DPad.moveStick { DPad.init 0 0 100 16 with direction := Dir.LEFT }
        0 0 0 0 0).1.direction = Dir.NONE ∧
      ¬ ({ DPad.init 0 0 100 16 with
            direction := Dir.LEFT } : DPad).direction = Dir.NONE) := by
  refine ⟨?_, ?_, ?_, ?_⟩
  · rfl
  · rfl
  · norm_num [DPad.moveStick, DPad.init]
  · simp [DPad.init]

end VJoy
